import Mathlib

/-!
Shallow embedding of the core of `scraper.py` from the jarchive_scraper
repository: the SQLite clue store (`init_db` / `save_clue`), the cached
fetcher (`get_soup`), the clue extractor (`get_clue_attribs`,
`scrape_episode`), the season scraper (`scrape_season`) and the incremental
crawl planner (`run_incremental_scrape`).

HTML pages fetched over the network are modelled by records holding exactly
the pieces of the markup the code reads via BeautifulSoup selectors
(`find` returns the first match or `None`, `find_all` returns all matches in
document order).  Python strings are Lean `String`s; string algorithms the
code relies on (`str.split`, `str.strip`, `int(...)`, `re.search` for the
three fixed patterns, substring containment, negative list indexing) are
reimplemented below over `List Char` with Python semantics.  Exceptions are
modelled by `Option`: every statement of the Python code that can raise is
translated so that the raising branch produces `none` exactly where the
surrounding `try/except` would turn the exception into a skip.
-/

namespace JArchive

/-! ## Python string primitives -/

/-- Python whitespace characters stripped by `str.strip()` (ASCII part). -/
def pyWhitespace (c : Char) : Bool :=
  c = ' ' || c = '\t' || c = '\n' || c = '\r' || c = '\x0b' || c = '\x0c'

/-- Drop leading whitespace. -/
def dropLeadWs (cs : List Char) : List Char := cs.dropWhile pyWhitespace

/-- Python `str.strip()`: drop whitespace from both ends. -/
def pyStrip (cs : List Char) : List Char :=
  ((cs.dropWhile pyWhitespace).reverse.dropWhile pyWhitespace).reverse

/-- Python `str.split(sep)` for a single-character separator: splits on every
occurrence, keeping empty fields (`"a__b".split("_") == ["a","","b"]`,
`"".split("_") == [""]`). -/
def pySplit (sep : Char) : List Char → List (List Char)
  | [] => [[]]
  | c :: rest =>
    if c = sep then [] :: pySplit sep rest
    else
      match pySplit sep rest with
      | [] => [[c]]
      | g :: gs => (c :: g) :: gs

/-- Does `pat` occur at the start of `s`? -/
def listStartsWith : List Char → List Char → Bool
  | [], _ => true
  | _ :: _, [] => false
  | a :: as, b :: bs => a = b && listStartsWith as bs

/-- Python `pat in s` substring containment. -/
def listContainsSub (pat : List Char) : List Char → Bool
  | [] => listStartsWith pat []
  | c :: rest => listStartsWith pat (c :: rest) || listContainsSub pat rest

/-- Numeric value of a list of decimal digit characters. -/
def natOfDigits (cs : List Char) : Nat :=
  cs.foldl (fun n c => 10 * n + (c.toNat - 48)) 0

/-- Tail of Python's integer-literal grammar after the first digit:
digits with single underscores allowed only between digits. -/
def pyNumTail : List Char → Bool
  | [] => true
  | '_' :: c :: rest => c.isDigit && pyNumTail rest
  | '_' :: [] => false
  | c :: rest => c.isDigit && pyNumTail rest

/-- Python's integer-literal body `\d+(_\d+)*` (ASCII digits). -/
def pyNumBody : List Char → Bool
  | [] => false
  | c :: rest => c.isDigit && pyNumTail rest

/-- Value of a valid integer-literal body, ignoring underscore separators. -/
def pyNumVal (cs : List Char) : Nat := natOfDigits (cs.filter Char.isDigit)

/-- Python `int(s)` on a string: strips surrounding whitespace, allows one
optional sign, then requires the digit/underscore body.  `none` models the
`ValueError` Python raises on anything else. -/
def pythonInt? (s : String) : Option Int :=
  let cs := pyStrip s.data
  match cs with
  | '-' :: rest => if pyNumBody rest then some (-(pyNumVal rest : Int)) else none
  | '+' :: rest => if pyNumBody rest then some (pyNumVal rest : Int) else none
  | rest => if pyNumBody rest then some (pyNumVal rest : Int) else none

/-- Python list indexing `l[i]` with an `Int` index: non-negative indices are
zero-based, negative indices count from the end, anything else raises
`IndexError` (modelled as `none`). -/
def pyGet (l : List α) (i : Int) : Option α :=
  if 0 ≤ i then l.get? i.toNat
  else
    let j : Int := (l.length : Int) + i
    if 0 ≤ j then l.get? j.toNat else none

/-! ## Fixed regular expressions used by the scraper

`re.search` returns the leftmost match; each helper below scans positions
left to right and applies the (fixed, finite) pattern at each position. -/

/-- The search `re.search(r'#(\d+)', s)`: group 1 of the leftmost occurrence of `#`
followed by at least one digit; the `\d+` group is greedy. -/
def searchHashNum : List Char → Option (List Char)
  | [] => none
  | c :: rest =>
    if c = '#' then
      let ds := rest.takeWhile Char.isDigit
      if ds.isEmpty then searchHashNum rest else some ds
    else searchHashNum rest

/-- Match `(\d{1,2})-` (greedy with backtracking) at the head of the input,
returning the digit group and the remainder after the `-`. -/
def matchMonthDash : List Char → Option (List Char × List Char)
  | m1 :: tail =>
    if m1.isDigit then
      match tail with
      | m2 :: tail2 =>
        if m2.isDigit then
          match tail2 with
          | '-' :: r => some ([m1, m2], r)
          | _ => none
        else if m2 = '-' then some ([m1], tail2) else none
      | [] => none
    else none
  | [] => none

/-- Match the final `(\d{1,2})` group (greedy) at the head of the input. -/
def matchDayGroup : List Char → Option (List Char)
  | d1 :: tail =>
    if d1.isDigit then
      match tail with
      | d2 :: _ => if d2.isDigit then some [d1, d2] else some [d1]
      | [] => some [d1]
    else none
  | [] => none

/-- Try to match `(\d{4})-(\d{1,2})-(\d{1,2})` at the current position. -/
def matchDateAt : List Char → Option (String × String × String)
  | y1 :: y2 :: y3 :: y4 :: '-' :: rest =>
    if y1.isDigit && y2.isDigit && y3.isDigit && y4.isDigit then
      match matchMonthDash rest with
      | some (m, r2) =>
        match matchDayGroup r2 with
        | some d => some (String.mk [y1, y2, y3, y4], String.mk m, String.mk d)
        | none => none
      | none => none
    else none
  | _ => none

/-- The search `re.search(r'(\d{4})-(\d{1,2})-(\d{1,2})', s)`: leftmost match. -/
def searchDate : List Char → Option (String × String × String)
  | [] => none
  | c :: rest =>
    match matchDateAt (c :: rest) with
    | some r => some r
    | none => searchDate rest

/-- ASCII word character, for `re`'s `\w`. -/
def isWordChar (c : Char) : Bool :=
  c.isAlpha || c.isDigit || c = '_'

/-- The search `re.search(r'season=(\w+)', s)`: group 1 of the leftmost occurrence of the
literal `season=` followed by at least one word character (greedy `\w+`). -/
def searchSeasonTok : List Char → Option (List Char)
  | [] => none
  | c :: rest =>
    if listStartsWith "season=".data (c :: rest) then
      let ws := ((c :: rest).drop 7).takeWhile isWordChar
      if ws.isEmpty then searchSeasonTok rest else some ws
    else searchSeasonTok rest

/-! ## Gregorian calendar validity (`datetime.date` constructor) -/

/-- Gregorian leap year. -/
def isLeapYear (y : Nat) : Bool :=
  y % 4 = 0 && (y % 100 ≠ 0 || y % 400 = 0)

/-- Days in a month of the proleptic Gregorian calendar. -/
def daysInMonth (y m : Nat) : Nat :=
  if m = 2 then (if isLeapYear y then 29 else 28)
  else if m = 4 || m = 6 || m = 9 || m = 11 then 30
  else 31

/-- Arguments accepted by `datetime.date(year, month, day)`; anything else
raises `ValueError`. -/
def isValidDate (y m d : Nat) : Bool :=
  1 ≤ y && y ≤ 9999 && 1 ≤ m && m ≤ 12 && 1 ≤ d && d ≤ daysInMonth y m

/-! ## The clue store (`init_db` / `save_clue`)

`init_db` creates table `clues` with `uid TEXT PRIMARY KEY` and one column
per clue attribute.  The table is modelled as a list of rows; `save_clue`
runs `INSERT OR REPLACE INTO clues (...) VALUES (...)` with all thirteen
columns supplied, which deletes any existing row with the same primary key
`uid` and inserts the new row. -/

/-- One row of the `clues` table (the dictionary passed to `save_clue` by
`scrape_episode`, which supplies every column of the schema). -/
structure ClueRecord where
  uid : String
  episode : String
  season : String
  air_date : Int
  category : String
  answer : String
  text : String
  dollar_value : String
  order_number : String
  dj : Bool
  triple_stumper : Bool
  clue_row : String
  contestant : String
deriving DecidableEq, Repr

/-- The `clues` table. -/
abbrev ClueDb := List ClueRecord

/-- Function `save_clue`: `INSERT OR REPLACE` keyed by the `uid` primary key — any row
with the same `uid` is removed and the new row is inserted. -/
def save_clue (db : ClueDb) (r : ClueRecord) : ClueDb :=
  db.filter (fun x => x.uid != r.uid) ++ [r]

/-- The query `SELECT DISTINCT season FROM clues` (as a list of season tokens;
only membership and emptiness of the result are consumed). -/
def existingSeasonsDb (db : ClueDb) : List String :=
  (db.map (fun r => r.season)).dedup

/-- Function `get_episodes_in_db`: `SELECT DISTINCT episode FROM clues WHERE season = ?`. -/
def get_episodes_in_db (db : ClueDb) (season_num : String) : List String :=
  ((db.filter (fun r => r.season == season_num)).map (fun r => r.episode)).dedup

/-! ## The fetch cache (`get_soup`)

`get_soup(url)` keys the on-disk cache by `md5(url).hexdigest() + ".html"`;
the hash is a fixed deterministic function of the url, so the cache is
modelled as an association list keyed by the url itself.  A cache hit reads
the stored file and performs no HTTP request; on a miss the code sleeps a
randomized delay, performs exactly one `requests.get`, and either stores the
decoded body and returns it (success) or — on a non-2xx status
(`raise_for_status`) or any network error — returns `None` without writing
the cache.  The network is a function from url to `Option` body (`none` =
non-success status or network failure); `requests` counts HTTP requests
issued. -/

/-- State of the fetch layer: the on-disk cache plus a counter of HTTP
requests actually issued. -/
structure FetchState where
  cache : List (String × String)
  requests : Nat
deriving DecidableEq, Repr

/-- First binding of a key in the cache (the cache file for that url). -/
def cacheLookup : List (String × String) → String → Option String
  | [], _ => none
  | (k, v) :: rest, url => if k = url then some v else cacheLookup rest url

/-- Function `get_soup`, returning the page content (`none` models returning `None`)
and the updated fetch state. -/
def get_soup (net : String → Option String) (st : FetchState) (url : String) :
    Option String × FetchState :=
  match cacheLookup st.cache url with
  | some content => (some content, st)
  | none =>
    match net url with
    | some content =>
      (some content, ⟨st.cache ++ [(url, content)], st.requests + 1⟩)
    | none => (none, ⟨st.cache, st.requests + 1⟩)

/-! ## The clue extractor (`get_clue_attribs`, `scrape_episode`) -/

/-- The element of class `clue_unstuck` inside a clue container; the code
reads its `id` attribute (`get('id')` is `None` when the attribute is
missing, and `None.split` then raises `AttributeError`). -/
structure UnstuckElem where
  id : Option String
deriving DecidableEq, Repr

/-- One clue container (an element with class `clue`), holding exactly what
`get_clue_attribs` reads from it: first `em.correct_response` text, first
`td.right` text, all `td.wrong` texts in document order, the first
`clue_unstuck` element, and the texts of the first elements whose class
matches `clue_value`, `clue_text` and `clue_order_number` (each `none` when
`find` returns `None`). -/
structure ClueDiv where
  correct_response : Option String
  right_cell : Option String
  wrong_cells : List String
  clue_unstuck : Option UnstuckElem
  clue_value : Option String
  clue_text : Option String
  clue_order_number : Option String
deriving DecidableEq, Repr

/-- An episode page as read by `scrape_episode`: texts of all
`td.category_name` cells and all elements of class `clue`, in document
order. -/
structure EpisodePage where
  cats : List String
  clues : List ClueDiv
deriving DecidableEq, Repr

/-- Substring test for the literal `"Triple Stumper"` marker
(Python `"Triple Stumper" in wa.get_text()`). -/
def containsTS (s : String) : Bool :=
  listContainsSub "Triple Stumper".data s.data

/-- The `for wa in wrong_answers` loop: scan wrong-answer cells in order and
stop at the first whose text contains the `"Triple Stumper"` marker. -/
def tsScan : List String → Bool
  | [] => false
  | w :: ws => if containsTS w then true else tsScan ws

/-- The partial clue dictionary built by `get_clue_attribs` (before
`scrape_episode` attaches episode, season, air date and uid). -/
structure ClueAttribs where
  answer : String
  category : String
  text : String
  dollar_value : String
  order_number : String
  dj : Bool
  triple_stumper : Bool
  clue_row : String
  contestant : String
deriving DecidableEq, Repr

/-- Function `get_clue_attribs(clue, cats)`.  The whole body is wrapped in
`try/except Exception`, so every raising statement — a missing `id`
attribute, too few `_`-separated id fields, a non-numeric category field, a
negative category index below `-len(cats)` — is modelled by `none`, exactly
like the explicit `if not clue_unstuck: return None` path. -/
def get_clue_attribs (clue : ClueDiv) (cats : List String) : Option ClueAttribs :=
  let answer := clue.correct_response.getD "Unknown"
  let contestant0 := clue.right_cell.getD "None"
  let ts := tsScan clue.wrong_cells
  let contestant := if ts then "Triple Stumper" else contestant0
  match clue.clue_unstuck with
  | none => none
  | some elem =>
    match elem.id with
    | none => none
    | some clue_id_str =>
      match (((pySplit '_' clue_id_str.data).map String.mk).drop 1).take 3 with
      | c0 :: c1 :: c2 :: _ =>
        match pythonInt? c1 with
        | none => none
        | some n =>
          let cat_idx : Int := n - 1 + (if c0 = "DJ" then 6 else 0)
          match (if cat_idx < (cats.length : Int) then pyGet cats cat_idx
                 else some "Unknown") with
          | none => none
          | some cat =>
            some
              { answer := answer
                category := cat
                text := clue.clue_text.getD ""
                dollar_value := clue.clue_value.getD "0"
                order_number := clue.clue_order_number.getD "0"
                dj := c0 = "DJ"
                triple_stumper := ts
                clue_row := c2
                contestant := contestant }
      | _ => none

/-- The list of full clue dictionaries `scrape_episode` passes to
`save_clue`, in document order: each successfully extracted clue gets the
episode, season and air date attached, plus the uid
`f"{episode_num}_{category}_{dollar_value}_{order_number}"`. -/
def scrape_episode_records (page : EpisodePage) (episode_num season_num : String)
    (air_date : Int) : List ClueRecord :=
  page.clues.filterMap fun clue =>
    (get_clue_attribs clue page.cats).map fun a =>
      { uid := episode_num ++ "_" ++ a.category ++ "_" ++ a.dollar_value ++ "_" ++
          a.order_number
        episode := episode_num
        season := season_num
        air_date := air_date
        category := a.category
        answer := a.answer
        text := a.text
        dollar_value := a.dollar_value
        order_number := a.order_number
        dj := a.dj
        triple_stumper := a.triple_stumper
        clue_row := a.clue_row
        contestant := a.contestant }

/-- Effect of `scrape_episode` on the store: each extracted clue is upserted
in order. -/
def scrape_episode (db : ClueDb) (page : EpisodePage) (episode_num season_num : String)
    (air_date : Int) : ClueDb :=
  (scrape_episode_records page episode_num season_num air_date).foldl save_clue db

/-! ## The season scraper (`scrape_season`) and crawl planner
(`run_incremental_scrape`)

A season index page is modelled by the list of its `showgame.php` anchor
elements inside the `content` div, each with its link text and optional
`href`.  Season pages are fetched through `get_soup`; for the planner
theorems the fetch layer is abstracted into a function from url to
`Option` page (`none` = fetch failure or a page without a `content` div,
both of which the code skips with `continue`/`return`).  `time.mktime` is
platform state (local timezone); it is passed in as an abstract function
from the parsed (year, month, day) to a timestamp. -/

/-- One `showgame.php` anchor on a season index page. -/
structure EpisodeEntry where
  text : String
  href : Option String
deriving DecidableEq, Repr

/-- One scheduled `scrape_episode(href, ep_num, season_num, timestamp)` call
made by `scrape_season`. -/
structure ScrapeAction where
  href : String
  ep : String
  ts : Int
deriving DecidableEq, Repr

/-- Episode-number extraction from the first comma field of an anchor's
text: group 1 of `re.search(r'#(\d+)', ...)` if it matches, else the field
stripped. -/
def entryEpNum (p0 : List Char) : String :=
  match searchHashNum p0 with
  | some ds => String.mk ds
  | none => String.mk (pyStrip p0)

/-- The body of `scrape_season`'s episode loop for one anchor, up to the
point where `scrape_episode` is called: split the link text on `,`; skip if
fewer than two fields; extract the episode number (`entryEpNum`); skip if
already in the store; search field 1 (stripped) for the date pattern, skip
(with a log) if absent; construct `datetime.date` (skip via `except` if
invalid) and take `time.mktime`; call `scrape_episode` only when the anchor
has an `href`.  Returns the scheduled call, or `none` when this anchor is
skipped. -/
def entryStep (mktime : Nat → Nat → Nat → Int) (existing : List String)
    (e : EpisodeEntry) : Option ScrapeAction :=
  match pySplit ',' e.text.data with
  | p0 :: p1 :: _ =>
    let ep_num := entryEpNum p0
    if ep_num ∈ existing then none
    else
      match searchDate (pyStrip p1) with
      | none => none
      | some (ys, ms, ds) =>
        let year := natOfDigits ys.data
        let month := natOfDigits ms.data
        let day := natOfDigits ds.data
        if isValidDate year month day then
          match e.href with
          | some href => some ⟨href, ep_num, mktime year month day⟩
          | none => none
        else none
  | _ => none

/-- Loop of `scrape_season` over episodes: anchors in document order, with the
`limit`/`count` early-exit check at the top of each iteration (`count`
advances only when an episode is actually scraped). -/
def scrapeSeasonGo (mktime : Nat → Nat → Nat → Int) (existing : List String)
    (lim : Option Nat) (count : Nat) : List EpisodeEntry → List ScrapeAction
  | [] => []
  | e :: rest =>
    if (match lim with | some l => decide (l ≤ count) | none => false) then []
    else
      match entryStep mktime existing e with
      | some a => a :: scrapeSeasonGo mktime existing lim (count + 1) rest
      | none => scrapeSeasonGo mktime existing lim count rest

/-- The season token `scrape_season` re-derives from its url via
`re.search(r'season=(\w+)', url)`, with fallback `"Unknown"`. -/
def seasonNumOfUrl (url : String) : String :=
  match searchSeasonTok url.data with
  | some ws => String.mk ws
  | none => "Unknown"

/-- Function `scrape_season(url, limit)`: returns the `scrape_episode` calls it makes
(empty when the index page cannot be fetched or lacks a `content` div). -/
def scrape_season (mktime : Nat → Nat → Nat → Int)
    (fetchSeason : String → Option (List EpisodeEntry)) (db : ClueDb)
    (url : String) (lim : Option Nat) : List ScrapeAction :=
  let season_num := seasonNumOfUrl url
  match fetchSeason url with
  | none => []
  | some episodes =>
    scrapeSeasonGo mktime (get_episodes_in_db db season_num) lim 0 episodes

/-- A season as produced by `get_seasons_list`: token from the
`season=(\w+)` query parameter and the absolute url of its index page. -/
structure Season where
  number : String
  url : String
deriving DecidableEq, Repr

/-- Function `season_key`: `int(s['number'])`, with any failure mapped to `0`. -/
def season_key (s : Season) : Int :=
  (pythonInt? s.number).getD 0

/-- The call `seasons.sort(key=season_key, reverse=True)`: Python's sort is stable,
and a stable descending-by-key sort is exactly insertion sort under the
relation "key of the left is at least key of the right" (ties keep the
original order, with the earlier element first). -/
def sortSeasons (seasons : List Season) : List Season :=
  seasons.insertionSort (fun a b => season_key b ≤ season_key a)

/-- Step 1 of `run_incremental_scrape`'s planning: walk the sorted seasons
and return the first already-persisted one whose index page shows more
episode links than the store has distinct episodes (skipping seasons whose
index page cannot be fetched or lacks a `content` div). -/
def findIncomplete (fetchSeason : String → Option (List EpisodeEntry)) (db : ClueDb) :
    List Season → Option Season
  | [] => none
  | s :: rest =>
    if s.number ∈ existingSeasonsDb db then
      match fetchSeason s.url with
      | none => findIncomplete fetchSeason db rest
      | some episodes =>
        if (get_episodes_in_db db s.number).length < episodes.length then some s
        else findIncomplete fetchSeason db rest
    else findIncomplete fetchSeason db rest

/-- Target-season selection of `run_incremental_scrape`: resume the first
incomplete persisted season; otherwise start the newest season if the store
is empty, else the first season not yet persisted; otherwise `none`. -/
def plan_next_season (fetchSeason : String → Option (List EpisodeEntry)) (db : ClueDb)
    (seasons : List Season) : Option Season :=
  let sorted := sortSeasons seasons
  match findIncomplete fetchSeason db sorted with
  | some s => some s
  | none =>
    if (existingSeasonsDb db).isEmpty then sorted.head?
    else sorted.find? (fun s => !((existingSeasonsDb db).contains s.number))

/-- Observable outcome of one `run_incremental_scrape` call. -/
inductive RunOutcome where
  /-- Case where `get_seasons_list` returned nothing: "Could not fetch seasons list." -/
  | noSeasons : RunOutcome
  /-- A target season was scraped (with the `scrape_episode` calls made),
  then the site was exported. -/
  | scraped (target : Season) (actions : List ScrapeAction) : RunOutcome
  /-- "All seasons appear to be scraped and up to date!" — no scraping. -/
  | upToDate : RunOutcome
deriving DecidableEq, Repr

/-- Function `run_incremental_scrape`, parameterized by the season list returned by
`get_seasons_list`, the store contents, and the fetch layer. -/
def run_incremental_scrape (mktime : Nat → Nat → Nat → Int)
    (fetchSeason : String → Option (List EpisodeEntry)) (db : ClueDb)
    (seasons : List Season) : RunOutcome :=
  if seasons.isEmpty then .noSeasons
  else
    match plan_next_season fetchSeason db seasons with
    | some target => .scraped target (scrape_season mktime fetchSeason db target.url none)
    | none => .upToDate

/-- A persisted season that is in progress: its index page fetches
successfully and lists strictly more episode links than the store holds
distinct episodes for it. -/
def seasonIncomplete (fetchSeason : String → Option (List EpisodeEntry)) (db : ClueDb)
    (s : Season) : Prop :=
  s.number ∈ existingSeasonsDb db ∧
    ∃ episodes, fetchSeason s.url = some episodes ∧
      (get_episodes_in_db db s.number).length < episodes.length

/-! ## Concrete test fixtures

Small concrete pages, clues and worlds used to instantiate the theorems
below; they follow the end-to-end scenario of the documentation (episode
`#6895` of season `31`, one single-round clue in category `SCIENCE` worth
`$200` at order `1` with answer `Newton`). -/

/-- Six single-round category headers, `SCIENCE` first. -/
def exCats : List String := ["SCIENCE", "HISTORY", "SPORTS", "MOVIES", "MUSIC", "ART"]

/-- The scenario's science clue: row 1, column 1 of the single round. -/
def exClue : ClueDiv :=
  { correct_response := some "Newton"
    right_cell := some "Alice"
    wrong_cells := []
    clue_unstuck := some ⟨some "clue_J_1_1"⟩
    clue_value := some "$200"
    clue_text := some "He formulated gravity"
    clue_order_number := some "1" }

/-- A clue container with no `clue_unstuck` anchor element. -/
def exBadAnchorClue : ClueDiv :=
  { exClue with clue_unstuck := none }

/-- A clue whose structural id yields category index `-7`
(`int("-6") - 1`), below `-len(cats)` for six categories. -/
def exNegClue : ClueDiv :=
  { exClue with clue_unstuck := some ⟨some "clue_J_-6_1"⟩ }

/-- A clue whose structural id yields category index `-1` (`int("0") - 1`). -/
def exWrapClue : ClueDiv :=
  { exClue with clue_unstuck := some ⟨some "clue_J_0_1"⟩, clue_value := some "$400" }

/-- A double-round clue on a page with only six category headers: its
category index is `6`, one past the end of `exCats`. -/
def exHighClue : ClueDiv :=
  { exClue with clue_unstuck := some ⟨some "clue_DJ_1_1"⟩ }

/-- A clue with two wrong-answer cells, the second carrying the
`Triple Stumper` marker. -/
def exTSClue : ClueDiv :=
  { exClue with
      right_cell := none
      wrong_cells := ["Bob: What is water?", "(on the rebound) Triple Stumper", "Carol"] }

/-- The attribute record extracted from `exTSClue`. -/
def exTSAttribs : ClueAttribs :=
  { answer := "Newton", category := "SCIENCE", text := "He formulated gravity",
    dollar_value := "$200", order_number := "1", dj := false,
    triple_stumper := true, clue_row := "1", contestant := "Triple Stumper" }

/-- The scenario episode page. -/
def exPage : EpisodePage := ⟨exCats, [exClue]⟩

/-- The record `scrape_episode` persists for the scenario clue. -/
def exScraped : ClueRecord :=
  { uid := "6895_SCIENCE_$200_1", episode := "6895", season := "31",
    air_date := 1630454400, category := "SCIENCE", answer := "Newton",
    text := "He formulated gravity", dollar_value := "$200", order_number := "1",
    dj := false, triple_stumper := false, clue_row := "1", contestant := "Alice" }

/-- The same clue re-extracted with a different answer (second upsert). -/
def exScraped2 : ClueRecord := { exScraped with answer := "Isaac Newton" }

/-- A record under a different uid (a `$400` clue of the same episode). -/
def exOther : ClueRecord :=
  { exScraped with uid := "6895_SCIENCE_$400_2", dollar_value := "$400", order_number := "2" }

/-- A concrete stand-in for `time.mktime`. -/
def exMk : Nat → Nat → Nat → Int := fun y m d => (y * 10000 + m * 100 + d : Int)

/-- Season 31 and its index url. -/
def exSeason31 : Season := ⟨"31", "http://www.j-archive.com/showseason.php?season=31"⟩

/-- Season 30 and its index url. -/
def exSeason30 : Season := ⟨"30", "http://www.j-archive.com/showseason.php?season=30"⟩

/-- A season with a non-numeric token. -/
def exSeasonSJ : Season :=
  ⟨"superjeopardy", "http://www.j-archive.com/showseason.php?season=superjeopardy"⟩

/-- A store holding one clue of episode 6895, season 31. -/
def exDb : ClueDb := [exScraped]

/-- Season 31's index entries: episode 6895 (persisted in `exDb`) and 6896
(missing). -/
def exEntries31 : List EpisodeEntry :=
  [⟨"#6895, aired 2021-09-01", some "showgame.php?game_id=1"⟩,
   ⟨"#6896, aired 2021-09-02", some "showgame.php?game_id=2"⟩]

/-- Season 30's index entries. -/
def exEntries30 : List EpisodeEntry :=
  [⟨"#6600, aired 2013-09-01", some "showgame.php?game_id=3"⟩]

/-- Season 31's index entries in the fully-caught-up world: exactly the one
episode `exDb` holds. -/
def exEntriesDone : List EpisodeEntry :=
  [⟨"#6895, aired 2021-09-01", some "showgame.php?game_id=1"⟩]

/-- Index pages: season 31 lists two episodes (6895 persisted in `exDb`,
6896 missing), season 30 lists one. -/
def exFetch : String → Option (List EpisodeEntry) := fun u =>
  if u = exSeason31.url then some exEntries31
  else if u = exSeason30.url then some exEntries30
  else none

/-- Index pages for a fully-caught-up world: season 31 lists exactly the one
episode `exDb` holds. -/
def exFetchDone : String → Option (List EpisodeEntry) := fun u =>
  if u = exSeason31.url then some exEntriesDone
  else none

/-- A one-page network. -/
def exNet : String → Option String := fun u =>
  if u = "http://www.j-archive.com/listseasons.php" then some "<html>seasons</html>"
  else none

/-! ## Helper lemmas -/

theorem save_clue_rows_with_uid (db : ClueDb) (r : ClueRecord) :
    (save_clue db r).filter (fun x => x.uid == r.uid) = [r] := by
  unfold save_clue
  rw [List.filter_append, List.filter_filter]
  have h1 : db.filter (fun a => (a.uid == r.uid) && (a.uid != r.uid)) = [] := by
    apply List.filter_eq_nil_iff.mpr
    intro a _
    by_cases h : a.uid = r.uid <;> simp [h]
  rw [h1]
  simp

theorem cacheLookup_append_self (c : List (String × String)) (url v : String)
    (h : cacheLookup c url = none) : cacheLookup (c ++ [(url, v)]) url = some v := by
  induction c with
  | nil => simp [cacheLookup]
  | cons kv rest ih =>
    obtain ⟨k, w⟩ := kv
    by_cases hk : k = url
    · simp [cacheLookup, hk] at h
    · simp only [cacheLookup, hk, if_neg hk, List.cons_append] at h ⊢
      exact ih h

/-! ## Claims about the store -/

/-- C2: `save_clue` is an upsert keyed by uid — after saving a record, the
rows carrying its uid are exactly the one new record (whether or not a row
with that uid existed before), and upserting two records with identical uids
in either order leaves exactly the last one. -/
theorem claim_C2_upsert_by_uid (db : ClueDb) (r1 r2 : ClueRecord) (_h : r1.uid = r2.uid) :
    ((save_clue db r1).filter (fun x => x.uid == r1.uid) = [r1]) ∧
    ((save_clue (save_clue db r1) r2).filter (fun x => x.uid == r2.uid) = [r2]) ∧
    ((save_clue (save_clue db r2) r1).filter (fun x => x.uid == r1.uid) = [r1]) :=
  ⟨save_clue_rows_with_uid db r1,
   save_clue_rows_with_uid (save_clue db r1) r2,
   save_clue_rows_with_uid (save_clue db r2) r1⟩

/-- Witness for C2 on the scenario record and its re-extraction. -/
theorem claim_C2_upsert_by_uid_witness :
    ((save_clue exDb exScraped2).filter (fun x => x.uid == exScraped2.uid) = [exScraped2]) ∧
    ((save_clue (save_clue exDb exScraped2) exScraped).filter
        (fun x => x.uid == exScraped.uid) = [exScraped]) ∧
    ((save_clue (save_clue exDb exScraped) exScraped2).filter
        (fun x => x.uid == exScraped2.uid) = [exScraped2]) :=
  claim_C2_upsert_by_uid exDb exScraped2 exScraped (by decide)

/-- C10: frame property — for any uid other than the saved record's, the
rows carrying that uid (their values and their order) are unchanged by
`save_clue`. -/
theorem claim_C10_save_clue_frame (db : ClueDb) (r : ClueRecord) (u : String)
    (h : u ≠ r.uid) :
    (save_clue db r).filter (fun x => x.uid == u) = db.filter (fun x => x.uid == u) := by
  unfold save_clue
  rw [List.filter_append, List.filter_filter]
  have hb : (r.uid == u) = false := beq_eq_false_iff_ne.mpr (Ne.symm h)
  have h1 : [r].filter (fun x => x.uid == u) = [] := by
    simp [List.filter, hb]
  have h2 : db.filter (fun a => (a.uid == u) && (a.uid != r.uid)) =
      db.filter (fun a => a.uid == u) := by
    apply List.filter_congr
    intro a _
    by_cases ha : a.uid = u
    · simp [ha, h]
    · simp [ha]
  rw [h1, h2, List.append_nil]

/-- Witness for C10: saving the `$200` clue leaves the `$400` row alone. -/
theorem claim_C10_save_clue_frame_witness :
    (save_clue [exOther] exScraped2).filter (fun x => x.uid == "6895_SCIENCE_$400_2") =
      [exOther].filter (fun x => x.uid == "6895_SCIENCE_$400_2") :=
  claim_C10_save_clue_frame [exOther] exScraped2 "6895_SCIENCE_$400_2" (by decide)

/-! ## Claims about the fetch cache -/

/-- C8: when the url is not cached and the request fails (non-success HTTP
status or network failure), `get_soup` returns `None` and writes nothing to
the cache, so the page stays not-yet-fetched. -/
theorem claim_C8_failed_fetch_no_cache (net : String → Option String) (st : FetchState)
    (url : String) (hmiss : cacheLookup st.cache url = none) (hfail : net url = none) :
    (get_soup net st url).1 = none ∧ (get_soup net st url).2.cache = st.cache := by
  unfold get_soup
  rw [hmiss, hfail]
  exact ⟨rfl, rfl⟩

/-- Witness for C8 at a url the network refuses. -/
theorem claim_C8_failed_fetch_no_cache_witness :
    (get_soup exNet ⟨[], 0⟩ "http://www.j-archive.com/showseason.php?season=31").1 = none ∧
    (get_soup exNet ⟨[], 0⟩ "http://www.j-archive.com/showseason.php?season=31").2.cache = [] :=
  claim_C8_failed_fetch_no_cache exNet ⟨[], 0⟩
    "http://www.j-archive.com/showseason.php?season=31" (by decide) (by decide)

/-- C9: after a successful first fetch of a url, the stored content equals
what was returned, and any later `get_soup` of the same url — under any
network behaviour whatsoever — returns that exact stored content and leaves
the fetch state (request counter included) untouched: a pure cache hit with
zero network requests. -/
theorem claim_C9_cache_hit (net : String → Option String) (st : FetchState)
    (url content : String) (hmiss : cacheLookup st.cache url = none)
    (hok : net url = some content) :
    (get_soup net st url).1 = some content ∧
    ∀ net2 : String → Option String,
      get_soup net2 (get_soup net st url).2 url = (some content, (get_soup net st url).2) := by
  have hstep : get_soup net st url =
      (some content, ⟨st.cache ++ [(url, content)], st.requests + 1⟩) := by
    unfold get_soup
    rw [hmiss, hok]
  refine ⟨by rw [hstep], fun net2 => ?_⟩
  rw [hstep]
  unfold get_soup
  rw [cacheLookup_append_self st.cache url content hmiss]

/-- Witness for C9: fetch the seasons listing once, then re-fetch it against
a dead network. -/
theorem claim_C9_cache_hit_witness :
    (get_soup exNet ⟨[], 0⟩ "http://www.j-archive.com/listseasons.php").1 =
      some "<html>seasons</html>" ∧
    get_soup (fun _ => none)
        (get_soup exNet ⟨[], 0⟩ "http://www.j-archive.com/listseasons.php").2
        "http://www.j-archive.com/listseasons.php" =
      (some "<html>seasons</html>",
       (get_soup exNet ⟨[], 0⟩ "http://www.j-archive.com/listseasons.php").2) := by
  have h := claim_C9_cache_hit exNet ⟨[], 0⟩ "http://www.j-archive.com/listseasons.php"
    "<html>seasons</html>" (by decide) (by decide)
  exact ⟨h.1, h.2 (fun _ => none)⟩

/-! ## Claims about the clue extractor -/

/-- C1: every record persisted by `scrape_episode` carries the uid obtained
by joining episode number, resolved category, dollar-value text and
order-number text with `_`, in that order; in the documentation's end-to-end
scenario the uid is exactly `"6895_SCIENCE_$200_1"`. -/
theorem claim_C1_uid_composition :
    (∀ (page : EpisodePage) (ep sn : String) (ad : Int) (r : ClueRecord),
      r ∈ scrape_episode_records page ep sn ad →
        r.episode = ep ∧
        r.uid = r.episode ++ "_" ++ r.category ++ "_" ++ r.dollar_value ++ "_" ++
          r.order_number) ∧
    (scrape_episode_records exPage "6895" "31" 1630454400).map
        (fun r => (r.uid, r.dollar_value, r.triple_stumper)) =
      [("6895_SCIENCE_$200_1", "$200", false)] := by
  constructor
  · intro page ep sn ad r h
    simp only [scrape_episode_records, List.mem_filterMap] at h
    obtain ⟨c, _, hmap⟩ := h
    rw [Option.map_eq_some'] at hmap
    obtain ⟨a, _, rfl⟩ := hmap
    exact ⟨rfl, rfl⟩
  · decide

/-- Witness for C1 at the scenario episode page. -/
theorem claim_C1_uid_composition_witness :
    exScraped.episode = "6895" ∧
    exScraped.uid = exScraped.episode ++ "_" ++ exScraped.category ++ "_" ++
      exScraped.dollar_value ++ "_" ++ exScraped.order_number :=
  claim_C1_uid_composition.1 exPage "6895" "31" 1630454400 exScraped (by decide)

/-- C6: a clue container without the `clue_unstuck` structural anchor yields
no record; dropping any clue whose extraction fails (for the anchor or any
other caught parse error, i.e. whenever `get_clue_attribs` yields `none`)
leaves the records — and the resulting store — of all remaining clues of the
episode unchanged.  Extraction over an episode is a total function of the
markup (`scrape_episode_records`), so it never raises. -/
theorem claim_C6_extraction_robustness :
    (∀ (clue : ClueDiv) (cats : List String),
      clue.clue_unstuck = none → get_clue_attribs clue cats = none) ∧
    (∀ (cats : List String) (c : ClueDiv) (pre post : List ClueDiv) (ep sn : String)
      (ad : Int), get_clue_attribs c cats = none →
        scrape_episode_records ⟨cats, pre ++ c :: post⟩ ep sn ad =
          scrape_episode_records ⟨cats, pre ++ post⟩ ep sn ad) ∧
    (∀ (db : ClueDb) (cats : List String) (c : ClueDiv) (pre post : List ClueDiv)
      (ep sn : String) (ad : Int), get_clue_attribs c cats = none →
        scrape_episode db ⟨cats, pre ++ c :: post⟩ ep sn ad =
          scrape_episode db ⟨cats, pre ++ post⟩ ep sn ad) := by
  have hrec : ∀ (cats : List String) (c : ClueDiv) (pre post : List ClueDiv)
      (ep sn : String) (ad : Int), get_clue_attribs c cats = none →
        scrape_episode_records ⟨cats, pre ++ c :: post⟩ ep sn ad =
          scrape_episode_records ⟨cats, pre ++ post⟩ ep sn ad := by
    intro cats c pre post ep sn ad h
    simp only [scrape_episode_records, List.filterMap_append, List.filterMap_cons, h,
      Option.map_none']
  refine ⟨?_, hrec, ?_⟩
  · intro clue cats h
    simp [get_clue_attribs, h]
  · intro db cats c pre post ep sn ad h
    unfold scrape_episode
    rw [hrec cats c pre post ep sn ad h]

/-- Witness for C6: removing the anchor from the scenario clue drops exactly
that clue and leaves the rest of the page's extraction intact. -/
theorem claim_C6_extraction_robustness_witness :
    get_clue_attribs exBadAnchorClue exCats = none ∧
    scrape_episode_records ⟨exCats, [exClue, exBadAnchorClue]⟩ "6895" "31" 1630454400 =
      scrape_episode_records ⟨exCats, [exClue]⟩ "6895" "31" 1630454400 := by
  have h := claim_C6_extraction_robustness.1 exBadAnchorClue exCats (by decide)
  exact ⟨h, claim_C6_extraction_robustness.2.1 exCats exBadAnchorClue [exClue] [] "6895" "31"
    1630454400 h⟩

theorem tsScan_eq_any (ws : List String) : tsScan ws = ws.any containsTS := by
  induction ws with
  | nil => rfl
  | cons w rest ih => by_cases h : containsTS w <;> simp [tsScan, h, ih]

theorem tsScan_pre_marker (pre : List String) (w : String) (post : List String)
    (hpre : ∀ u ∈ pre, containsTS u = false) (hw : containsTS w = true) :
    tsScan (pre ++ w :: post) = true := by
  induction pre with
  | nil => simp [tsScan, hw]
  | cons u rest ih =>
    have hu := hpre u (by simp)
    simp only [List.cons_append, tsScan, hu, Bool.false_eq_true, if_false]
    exact ih (fun v hv => hpre v (by simp [hv]))

theorem get_clue_attribs_ts_fields (clue : ClueDiv) (cats : List String) (a : ClueAttribs)
    (h : get_clue_attribs clue cats = some a) :
    a.triple_stumper = tsScan clue.wrong_cells ∧
    a.contestant =
      if tsScan clue.wrong_cells then "Triple Stumper" else clue.right_cell.getD "None" := by
  simp only [get_clue_attribs] at h
  iterate 6 (all_goals try split at h)
  all_goals first
    | (injection h with h2; subst h2; refine ⟨rfl, ?_⟩; split <;> simp_all)
    | exact absurd h (by simp)

/-- C7: the contestant defaults to `"None"`, is the `td.right` cell's name
when one exists, and is overridden to `"Triple Stumper"` (with the flag set)
exactly when some wrong-answer cell contains the literal marker; the scan
stops at the first marker, so cells after it are never inspected — replacing
them changes nothing. -/
theorem claim_C7_contestant (clue : ClueDiv) (cats : List String) (a : ClueAttribs)
    (h : get_clue_attribs clue cats = some a) :
    (a.triple_stumper = clue.wrong_cells.any containsTS) ∧
    (a.contestant =
      if clue.wrong_cells.any containsTS then "Triple Stumper"
      else clue.right_cell.getD "None") ∧
    (∀ (pre post post2 : List String) (w : String),
      (∀ u ∈ pre, containsTS u = false) → containsTS w = true →
        get_clue_attribs { clue with wrong_cells := pre ++ w :: post } cats =
          get_clue_attribs { clue with wrong_cells := pre ++ w :: post2 } cats) := by
  obtain ⟨h1, h2⟩ := get_clue_attribs_ts_fields clue cats a h
  rw [tsScan_eq_any] at h1 h2
  refine ⟨h1, h2, ?_⟩
  intro pre post post2 w hpre hw
  have e1 : tsScan (pre ++ w :: post) = true := tsScan_pre_marker pre w post hpre hw
  have e2 : tsScan (pre ++ w :: post2) = true := tsScan_pre_marker pre w post2 hpre hw
  simp only [get_clue_attribs, e1, e2]

/-- Witness for C7 on a clue whose second wrong-answer cell carries the
marker. -/
theorem claim_C7_contestant_witness :
    get_clue_attribs exTSClue exCats = some exTSAttribs ∧
    exTSAttribs.triple_stumper = exTSClue.wrong_cells.any containsTS ∧
    (exTSAttribs.contestant =
      if exTSClue.wrong_cells.any containsTS then "Triple Stumper"
      else exTSClue.right_cell.getD "None") ∧
    get_clue_attribs
        { exTSClue with
            wrong_cells := ["Bob: What is water?", "(on the rebound) Triple Stumper"] }
        exCats =
      get_clue_attribs
        { exTSClue with
            wrong_cells := ["Bob: What is water?", "(on the rebound) Triple Stumper",
              "anything", "else"] }
        exCats := by
  have ha : get_clue_attribs exTSClue exCats = some exTSAttribs := by decide
  have h := claim_C7_contestant exTSClue exCats exTSAttribs ha
  exact ⟨ha, h.1, h.2.1,
    h.2.2 ["Bob: What is water?"] [] ["anything", "else"] "(on the rebound) Triple Stumper"
      (by decide) (by decide)⟩

theorem pyGet_neg_out {α : Type} (l : List α) (i : Int) (h : i < -(l.length : Int)) :
    pyGet l i = none := by
  unfold pyGet
  have hlen : (0 : Int) ≤ (l.length : Int) := Int.ofNat_nonneg _
  have h0 : ¬ (0 : Int) ≤ i := by omega
  have h1 : ¬ (0 : Int) ≤ (l.length : Int) + i := by omega
  simp [h0, h1]

/-- C5 counterexample: a clue whose structural id yields category index `-7`
on a six-category page (`int("-6") - 1`) is out of range of the category
list, yet the extractor does not assign `"Unknown"`: the Python negative
index raises `IndexError`, the `except` swallows it, and the clue yields no
record at all.  A clue whose id yields index `-1` is likewise never mapped
to a parsed header by the claim's reading, yet Python's negative indexing
silently resolves it to the last category (`"ART"`), not `"Unknown"`. -/
theorem claim_C5_counterexample :
    get_clue_attribs exNegClue exCats = none ∧
    (¬ ∃ a, get_clue_attribs exNegClue exCats = some a ∧ a.category = "Unknown") ∧
    (get_clue_attribs exWrapClue exCats).map (fun a => a.category) = some "ART" := by
  have h : get_clue_attribs exNegClue exCats = none := by decide
  refine ⟨h, ?_, by decide⟩
  rintro ⟨a, ha, -⟩
  rw [h] at ha
  exact Option.noConfusion ha

/-- C5 amended: when the structural id parses and yields category index
`idx`, an `idx` at or beyond the end of the category list gets the sentinel
`"Unknown"` (the episode is not aborted); a negative `idx` follows Python
indexing — below `-len(cats)` the clue is skipped entirely (no record),
while `-len(cats) ≤ idx < 0` selects a category from the end of the list. -/
theorem claim_C5_amended (clue : ClueDiv) (cats : List String) (idStr c0 c1 c2 : String)
    (n : Int) (hanchor : clue.clue_unstuck = some ⟨some idStr⟩)
    (hid : (((pySplit '_' idStr.data).map String.mk).drop 1).take 3 = [c0, c1, c2])
    (hint : pythonInt? c1 = some n) :
    ((cats.length : Int) ≤ n - 1 + (if c0 = "DJ" then 6 else 0) →
      ∃ a, get_clue_attribs clue cats = some a ∧ a.category = "Unknown") ∧
    (-(cats.length : Int) ≤ n - 1 + (if c0 = "DJ" then 6 else 0) →
      n - 1 + (if c0 = "DJ" then 6 else 0) < 0 →
      ∃ a, get_clue_attribs clue cats = some a ∧
        cats.get?
            (((cats.length : Int) + (n - 1 + (if c0 = "DJ" then 6 else 0))).toNat) =
          some a.category) ∧
    (n - 1 + (if c0 = "DJ" then 6 else 0) < -(cats.length : Int) →
      get_clue_attribs clue cats = none) := by
  refine ⟨?_, ?_, ?_⟩
  · intro hge
    have hnotlt : ¬ (n - 1 + (if c0 = "DJ" then 6 else 0) < (cats.length : Int)) := by
      omega
    simp only [get_clue_attribs, hanchor, hid, hint, if_neg hnotlt]
    exact ⟨_, rfl, rfl⟩
  · intro hge0 hlt0
    have hlen : (0 : Int) ≤ (cats.length : Int) := Int.ofNat_nonneg _
    have hlt2 : n - 1 + (if c0 = "DJ" then 6 else 0) < (cats.length : Int) := by
      omega
    have hnot0 : ¬ (0 : Int) ≤ n - 1 + (if c0 = "DJ" then 6 else 0) := by omega
    have hj : (0 : Int) ≤ (cats.length : Int) + (n - 1 + (if c0 = "DJ" then 6 else 0)) := by
      omega
    have hjlt :
        ((cats.length : Int) + (n - 1 + (if c0 = "DJ" then 6 else 0))).toNat <
          cats.length := by
      omega
    obtain ⟨cat, hcat⟩ :
        ∃ cat, cats.get?
            (((cats.length : Int) + (n - 1 + (if c0 = "DJ" then 6 else 0))).toNat) =
          some cat := by
      rw [List.get?_eq_get hjlt]
      exact ⟨_, rfl⟩
    have hpg : pyGet cats (n - 1 + (if c0 = "DJ" then 6 else 0)) = some cat := by
      simp only [pyGet, if_neg hnot0, if_pos hj]
      exact hcat
    simp only [get_clue_attribs, hanchor, hid, hint, if_pos hlt2, hpg]
    exact ⟨_, rfl, hcat⟩
  · intro hlt
    have hlen : (0 : Int) ≤ (cats.length : Int) := Int.ofNat_nonneg _
    have hlt2 : n - 1 + (if c0 = "DJ" then 6 else 0) < (cats.length : Int) := by
      omega
    have hnone : pyGet cats (n - 1 + (if c0 = "DJ" then 6 else 0)) = none :=
      pyGet_neg_out cats _ hlt
    simp only [get_clue_attribs, hanchor, hid, hint, if_pos hlt2, hnone]

/-- Witness for C5 amended: index `6` on a six-category page degrades to
`"Unknown"`; index `-1` wraps to the last category of the list; index `-7`
drops the clue. -/
theorem claim_C5_amended_witness :
    (∃ a, get_clue_attribs exHighClue exCats = some a ∧ a.category = "Unknown") ∧
    (∃ a, get_clue_attribs exWrapClue exCats = some a ∧
      exCats.get?
          (((exCats.length : Int) + (0 - 1 + (if ("J" : String) = "DJ" then 6 else 0))).toNat) =
        some a.category) ∧
    get_clue_attribs exNegClue exCats = none := by
  refine ⟨?_, ?_, ?_⟩
  · exact (claim_C5_amended exHighClue exCats "clue_DJ_1_1" "DJ" "1" "1" 1 (by decide)
      (by decide) (by decide)).1 (by decide)
  · exact (claim_C5_amended exWrapClue exCats "clue_J_0_1" "J" "0" "1" 0 (by decide)
      (by decide) (by decide)).2.1 (by decide) (by decide)
  · exact (claim_C5_amended exNegClue exCats "clue_J_-6_1" "J" "-6" "1" (-6) (by decide)
      (by decide) (by decide)).2.2 (by decide)

/-! ## Planner lemmas -/

theorem entryStep_filter (mk : Nat → Nat → Nat → Int) (ex : List String)
    (e : EpisodeEntry) :
    entryStep mk ex e =
      (entryStep mk [] e).bind (fun a => if a.ep ∈ ex then none else some a) := by
  cases hsplit : pySplit ',' e.text.data with
  | nil => simp [entryStep, hsplit]
  | cons p0 tail =>
    cases tail with
    | nil => simp [entryStep, hsplit]
    | cons p1 rest =>
      simp only [entryStep, hsplit, List.not_mem_nil, if_false]
      by_cases hm : entryEpNum p0 ∈ ex
      · simp only [if_pos hm]
        cases hsd : searchDate (pyStrip p1) with
        | none => rfl
        | some v =>
          obtain ⟨ys, ms, ds⟩ := v
          by_cases hv : isValidDate (natOfDigits ys.data) (natOfDigits ms.data)
              (natOfDigits ds.data)
          · cases e.href <;> simp [hv, hm]
          · simp [hv]
      · simp only [if_neg hm]
        cases hsd : searchDate (pyStrip p1) with
        | none => rfl
        | some v =>
          obtain ⟨ys, ms, ds⟩ := v
          by_cases hv : isValidDate (natOfDigits ys.data) (natOfDigits ms.data)
              (natOfDigits ds.data)
          · cases e.href <;> simp [hv, hm]
          · simp [hv]

theorem entryStep_some_not_mem (mk : Nat → Nat → Nat → Int) (ex : List String)
    (e : EpisodeEntry) (a : ScrapeAction) (h : entryStep mk ex e = some a) :
    a.ep ∉ ex := by
  rw [entryStep_filter] at h
  rw [Option.bind_eq_some] at h
  obtain ⟨b, _, hf⟩ := h
  by_cases hm : b.ep ∈ ex
  · rw [if_pos hm] at hf
    exact absurd hf (by simp)
  · rw [if_neg hm] at hf
    injection hf with hf2
    subst hf2
    exact hm

theorem scrapeSeasonGo_no_limit (mk : Nat → Nat → Nat → Int) (ex : List String)
    (count : Nat) (es : List EpisodeEntry) :
    scrapeSeasonGo mk ex none count es = es.filterMap (entryStep mk ex) := by
  induction es generalizing count with
  | nil => rfl
  | cons e rest ih =>
    unfold scrapeSeasonGo
    cases he : entryStep mk ex e <;> simp [List.filterMap_cons, he, ih]

theorem filterMap_entryStep_complete (mk : Nat → Nat → Nat → Int) (ex : List String)
    (es : List EpisodeEntry) (h : ∀ e ∈ es, (entryStep mk [] e).isSome) :
    (es.filterMap (entryStep mk ex)).map (fun a => a.ep) =
      ((es.filterMap (entryStep mk [])).map (fun a => a.ep)).filter
        (fun s => !(ex.contains s)) := by
  induction es with
  | nil => rfl
  | cons e rest ih =>
    have h0 := h e (by simp)
    rw [Option.isSome_iff_exists] at h0
    obtain ⟨b, hb⟩ := h0
    have hstep : entryStep mk ex e = if b.ep ∈ ex then none else some b := by
      rw [entryStep_filter mk ex e, hb]
      rfl
    have ihr := ih (fun e2 he2 => h e2 (List.mem_cons_of_mem e he2))
    by_cases hm : b.ep ∈ ex
    · rw [if_pos hm] at hstep
      simp [List.filterMap_cons, hb, hstep, hm, ihr]
    · rw [if_neg hm] at hstep
      simp [List.filterMap_cons, hb, hstep, hm, ihr]

theorem findIncomplete_first (f : String → Option (List EpisodeEntry)) (db : ClueDb)
    (pre : List Season) (s : Season) (post : List Season)
    (hpre : ∀ t ∈ pre, ¬seasonIncomplete f db t) (hs : seasonIncomplete f db s) :
    findIncomplete f db (pre ++ s :: post) = some s := by
  induction pre with
  | nil =>
    obtain ⟨hmem, es, hf, hlt⟩ := hs
    simp only [List.nil_append, findIncomplete, if_pos hmem, hf, if_pos hlt]
  | cons t rest ih =>
    have hnt := hpre t (by simp)
    have ihr := ih (fun u hu => hpre u (List.mem_cons_of_mem t hu))
    simp only [List.cons_append, findIncomplete]
    by_cases hm : t.number ∈ existingSeasonsDb db
    · simp only [if_pos hm]
      cases hft : f t.url with
      | none => exact ihr
      | some es2 =>
        have hnlt : ¬ (get_episodes_in_db db t.number).length < es2.length :=
          fun hlt2 => hnt ⟨hm, es2, hft, hlt2⟩
        simp only [if_neg hnlt]
        exact ihr
    · simp only [if_neg hm]
      exact ihr

theorem findIncomplete_none (f : String → Option (List EpisodeEntry)) (db : ClueDb)
    (l : List Season)
    (h : ∀ t ∈ l, ∀ es, f t.url = some es →
      es.length ≤ (get_episodes_in_db db t.number).length) :
    findIncomplete f db l = none := by
  induction l with
  | nil => rfl
  | cons t rest ih =>
    have ihr := ih (fun u hu => h u (List.mem_cons_of_mem t hu))
    simp only [findIncomplete]
    by_cases hm : t.number ∈ existingSeasonsDb db
    · simp only [if_pos hm]
      cases hft : f t.url with
      | none => exact ihr
      | some es =>
        have hle := h t (by simp) es hft
        have hnlt : ¬ (get_episodes_in_db db t.number).length < es.length := by omega
        simp only [if_neg hnlt]
        exact ihr
    · simp only [if_neg hm]
      exact ihr

/-! ## Claims about the crawl planner -/

/-- C4: the planner sorts seasons descending by the numeric interpretation
of their token (`int`, anything unparseable keyed as `0`); when no season is
in progress it targets the single newest season if the store is empty, else
the first not-yet-persisted season in that order; and when every known
season is persisted and complete the run reports it is up to date without
scraping. -/
theorem claim_C4_planner_ordering (mk : Nat → Nat → Nat → Int)
    (fetchSeason : String → Option (List EpisodeEntry)) (db : ClueDb)
    (seasons : List Season) :
    (List.Sorted (fun a b => season_key b ≤ season_key a) (sortSeasons seasons) ∧
      (sortSeasons seasons).Perm seasons) ∧
    (∀ s : Season, pythonInt? s.number = none → season_key s = 0) ∧
    (findIncomplete fetchSeason db (sortSeasons seasons) = none →
      ((existingSeasonsDb db).isEmpty = true →
        plan_next_season fetchSeason db seasons = (sortSeasons seasons).head? ∧
        ∀ t, (sortSeasons seasons).head? = some t →
          ∀ u ∈ seasons, season_key u ≤ season_key t) ∧
      ((existingSeasonsDb db).isEmpty = false →
        plan_next_season fetchSeason db seasons =
          (sortSeasons seasons).find?
            (fun q => !((existingSeasonsDb db).contains q.number)))) ∧
    (seasons ≠ [] →
      (∀ s ∈ seasons, s.number ∈ existingSeasonsDb db ∧
        ∀ es, fetchSeason s.url = some es →
          es.length ≤ (get_episodes_in_db db s.number).length) →
      run_incremental_scrape mk fetchSeason db seasons = .upToDate) := by
  haveI : IsTotal Season (fun a b => season_key b ≤ season_key a) :=
    ⟨fun a b => le_total (season_key b) (season_key a)⟩
  haveI : IsTrans Season (fun a b => season_key b ≤ season_key a) :=
    ⟨fun _ _ _ hab hbc => le_trans hbc hab⟩
  have hsorted : List.Sorted (fun a b => season_key b ≤ season_key a)
      (sortSeasons seasons) :=
    List.sorted_insertionSort (fun a b => season_key b ≤ season_key a) seasons
  have hperm : (sortSeasons seasons).Perm seasons :=
    List.perm_insertionSort (fun a b => season_key b ≤ season_key a) seasons
  refine ⟨⟨hsorted, hperm⟩, ?_, ?_, ?_⟩
  · intro s hs
    simp [season_key, hs]
  · intro hni
    constructor
    · intro hemp
      constructor
      · simp [plan_next_season, hni, hemp]
      · intro t ht u hu
        cases hsv : sortSeasons seasons with
        | nil => rw [hsv] at ht; exact absurd ht (by simp)
        | cons t0 tail =>
          rw [hsv, List.head?_cons] at ht
          injection ht with ht0
          subst ht0
          have hu2 : u ∈ t0 :: tail := by
            rw [← hsv]
            exact hperm.mem_iff.mpr hu
          rcases List.mem_cons.mp hu2 with hu3 | hu3
          · subst hu3
            exact le_refl _
          · rw [hsv] at hsorted
            exact List.rel_of_sorted_cons hsorted u hu3
    · intro hemp
      simp [plan_next_season, hni, hemp]
  · intro hne hall
    have hsortnone : findIncomplete fetchSeason db (sortSeasons seasons) = none := by
      apply findIncomplete_none
      intro t ht es hes
      exact (hall t (hperm.mem_iff.mp ht)).2 es hes
    obtain ⟨s0, hs0⟩ := List.exists_mem_of_ne_nil seasons hne
    have hmem := (hall s0 hs0).1
    have hempf : (existingSeasonsDb db).isEmpty = false := by
      rw [List.isEmpty_eq_false]
      intro h0
      rw [h0] at hmem
      exact List.not_mem_nil _ hmem
    have hfind : (sortSeasons seasons).find?
        (fun q => !((existingSeasonsDb db).contains q.number)) = none := by
      rw [List.find?_eq_none]
      intro t ht
      have ht2 := (hall t (hperm.mem_iff.mp ht)).1
      simp [ht2]
    have hne2 : seasons.isEmpty = false := List.isEmpty_eq_false.mpr hne
    have hplan0 : plan_next_season fetchSeason db seasons = none := by
      simp only [plan_next_season, hsortnone, hempf]
      rw [if_neg (show ¬(false = true) by decide)]
      exact hfind
    simp only [run_incremental_scrape, hne2]
    rw [if_neg (show ¬(false = true) by decide), hplan0]

/-- Witness for C4: bootstrap targets the head of the sorted order;
newest-first expansion targets the first unpersisted season; and a
fully-persisted, complete world reports up to date. -/
theorem claim_C4_planner_ordering_witness :
    plan_next_season exFetch [] [exSeason30, exSeason31] =
      (sortSeasons [exSeason30, exSeason31]).head? ∧
    plan_next_season exFetchDone exDb [exSeason30, exSeason31] =
      (sortSeasons [exSeason30, exSeason31]).find?
        (fun q => !((existingSeasonsDb exDb).contains q.number)) ∧
    run_incremental_scrape exMk exFetchDone exDb [exSeason31] = .upToDate := by
  refine ⟨?_, ?_, ?_⟩
  · exact (((claim_C4_planner_ordering exMk exFetch [] [exSeason30, exSeason31]).2.2.1
      (by decide)).1 (by decide)).1
  · exact ((claim_C4_planner_ordering exMk exFetchDone exDb
      [exSeason30, exSeason31]).2.2.1 (by decide)).2 (by decide)
  · refine (claim_C4_planner_ordering exMk exFetchDone exDb [exSeason31]).2.2.2
      (by decide) ?_
    intro s hs
    rw [List.mem_singleton] at hs
    subst hs
    refine ⟨by decide, ?_⟩
    intro es hes
    have hval : exFetchDone exSeason31.url = some exEntriesDone := rfl
    rw [hval] at hes
    injection hes with h2
    subst h2
    decide

/-- C3: if, in the planner's descending order, some already-persisted season
has fewer distinct persisted episodes than episode links on its index page,
the first such season is selected (before any not-yet-persisted season is
considered); scraping it skips every episode number already persisted for
that season, and — whenever the remaining index entries parse — fetches
exactly the missing episodes, in index order. -/
theorem claim_C3_resume_correctness (mk : Nat → Nat → Nat → Int)
    (fetchSeason : String → Option (List EpisodeEntry)) (db : ClueDb)
    (seasons pre post : List Season) (s : Season) (episodes : List EpisodeEntry)
    (hsort : sortSeasons seasons = pre ++ s :: post)
    (hpre : ∀ t ∈ pre, ¬seasonIncomplete fetchSeason db t)
    (hs : seasonIncomplete fetchSeason db s)
    (hfetch : fetchSeason s.url = some episodes)
    (hurl : seasonNumOfUrl s.url = s.number) :
    plan_next_season fetchSeason db seasons = some s ∧
    run_incremental_scrape mk fetchSeason db seasons =
      .scraped s (episodes.filterMap (entryStep mk (get_episodes_in_db db s.number))) ∧
    (∀ a ∈ scrape_season mk fetchSeason db s.url none,
      a.ep ∉ get_episodes_in_db db s.number) ∧
    ((∀ e ∈ episodes, (entryStep mk [] e).isSome) →
      (scrape_season mk fetchSeason db s.url none).map (fun a => a.ep) =
        ((episodes.filterMap (entryStep mk [])).map (fun a => a.ep)).filter
          (fun n => !((get_episodes_in_db db s.number).contains n))) := by
  have hfi : findIncomplete fetchSeason db (sortSeasons seasons) = some s := by
    rw [hsort]
    exact findIncomplete_first fetchSeason db pre s post hpre hs
  have hplan : plan_next_season fetchSeason db seasons = some s := by
    simp [plan_next_season, hfi]
  have hscr : scrape_season mk fetchSeason db s.url none =
      episodes.filterMap (entryStep mk (get_episodes_in_db db s.number)) := by
    simp only [scrape_season, hurl, hfetch]
    exact scrapeSeasonGo_no_limit mk (get_episodes_in_db db s.number) 0 episodes
  have hne : seasons.isEmpty = false := by
    rw [List.isEmpty_eq_false]
    intro h0
    rw [h0] at hsort
    have h2 : ([] : List Season) = pre ++ s :: post := hsort
    exact List.cons_ne_nil s post (List.append_eq_nil.mp h2.symm).2
  have hrun : run_incremental_scrape mk fetchSeason db seasons =
      .scraped s (episodes.filterMap (entryStep mk (get_episodes_in_db db s.number))) := by
    simp [run_incremental_scrape, hne, hplan, hscr]
  refine ⟨hplan, hrun, ?_, ?_⟩
  · intro a ha
    rw [hscr, List.mem_filterMap] at ha
    obtain ⟨e, _, he⟩ := ha
    exact entryStep_some_not_mem mk _ e a he
  · intro hall
    rw [hscr]
    exact filterMap_entryStep_complete mk _ episodes hall

/-- Witness for C3: season 31 is persisted with 1 of 2 episodes; the planner
resumes it ahead of the unstarted season 30, and only episode 6896 is
fetched. -/
theorem claim_C3_resume_correctness_witness :
    plan_next_season exFetch exDb [exSeason30, exSeason31] = some exSeason31 ∧
    run_incremental_scrape exMk exFetch exDb [exSeason30, exSeason31] =
      .scraped exSeason31
        (exEntries31.filterMap (entryStep exMk (get_episodes_in_db exDb exSeason31.number))) ∧
    (∀ a ∈ scrape_season exMk exFetch exDb exSeason31.url none,
      a.ep ∉ get_episodes_in_db exDb exSeason31.number) ∧
    (scrape_season exMk exFetch exDb exSeason31.url none).map (fun a => a.ep) =
      ((exEntries31.filterMap (entryStep exMk [])).map (fun a => a.ep)).filter
        (fun n => !((get_episodes_in_db exDb exSeason31.number).contains n)) := by
  have h := claim_C3_resume_correctness exMk exFetch exDb [exSeason30, exSeason31] []
    [exSeason30] exSeason31 exEntries31
    (by decide)
    (by intro t ht; exact absurd ht (List.not_mem_nil t))
    ⟨by decide, exEntries31, rfl, by decide⟩
    rfl
    (by decide)
  exact ⟨h.1, h.2.1, h.2.2.1, h.2.2.2 (by decide)⟩

end JArchive
